import Mathlib

/-!
Verification of the Markov-chain tweet generator `generate_markov_tweet`
from `src/app.py` of the VC_Tweets dashboard.

The Python function is embedded shallowly:

* the transition table (a Python `dict` from a word to its list of
  successor words) becomes an association list `Chain`;
* the ambient random source (`random.choice`) becomes an explicit stream
  of naturals `rng : List Nat`; each call to `random.choice xs` consumes
  one stream value `r` and selects index `r % xs.length` (uniform whenever
  `r` is uniform over a multiple of `xs.length`);
* the Python `length` parameter is an arbitrary `Int` (the source does not
  restrict it; `range(length - 1)` simply runs zero times when
  `length - 1 <= 0`, which `Int.toNat` reproduces);
* the optional `seed` parameter (`None` by default) becomes
  `Option String`; Python's truthiness test `if seed and seed in chain`
  is `seedUsable`.
-/

/-- A transition table: association list from a word to its successor
list, embedding the Python `dict` (keys unique in the source data). -/
def Chain : Type := List (String × List String)

instance : DecidableEq Chain := by
  unfold Chain
  infer_instance

/-- Embeds `random.choice xs` given a value `r` drawn from the random
stream: selects index `r % xs.length`.  Only called on non-empty lists in
the reachable paths of the generator (matching the source, where
`random.choice` is only applied to non-empty lists). -/
def pyChoice (xs : List String) (r : Nat) : String :=
  xs.getD (r % xs.length) ""

/-- Embeds the Python condition `seed and seed in chain` (line 43 of
`src/app.py`): `seed` is truthy (not `None`, not the empty string) and is
a key of the table. -/
def seedUsable (chain : Chain) (seed : Option String) : Bool :=
  match seed with
  | none => false
  | some s => (s != "") && (List.lookup s chain).isSome

/-- Embeds lines 43-46 of `src/app.py`: the starting word is the seed when
usable, otherwise `random.choice(list(chain.keys()))`, which consumes one
value from the random stream.  Returns the start word and the remaining
stream. -/
def startWord (chain : Chain) (seed : Option String) (rng : List Nat) :
    String × List Nat :=
  if seedUsable chain seed then (seed.getD "", rng)
  else (pyChoice (chain.map Prod.fst) (rng.headD 0), rng.drop 1)

/-- Embeds the loop of lines 49-54 of `src/app.py`: up to `fuel` times,
look up `chain.get(word, [])`; if empty, stop; otherwise choose a
successor with `random.choice` and continue from it.  Returns the words
appended after the start word. -/
def walk (chain : Chain) : Nat → String → List Nat → List String
  | 0, _, _ => []
  | fuel + 1, word, rng =>
      let next_words := (List.lookup word chain).getD []
      if next_words.isEmpty then []
      else
        let w := pyChoice next_words (rng.headD 0)
        w :: walk chain fuel w (rng.drop 1)

/-- The word sequence `tweet_words` accumulated by
`generate_markov_tweet` for a non-empty table: the start word followed by
the walk of at most `length - 1` further steps (lines 48-54 of
`src/app.py`). -/
def generate_markov_tweet_words (chain : Chain) (length : Int)
    (seed : Option String) (rng : List Nat) : List String :=
  let p := startWord chain seed rng
  p.1 :: walk chain (length - 1).toNat p.1 p.2

/-- Embeds `generate_markov_tweet` (lines 35-55 of `src/app.py`): the
sentinel string for an empty table, otherwise the space-joined word
sequence. -/
def generate_markov_tweet (chain : Chain) (length : Int)
    (seed : Option String) (rng : List Nat) : String :=
  if chain.isEmpty then "Not enough data to generate a tweet."
  else String.intercalate " " (generate_markov_tweet_words chain length seed rng)

/-!
State-passing translation for the frame claim: every access the Python
function makes to the dictionary (`not chain`, `seed in chain`,
`chain.keys()`, `chain.get(word, [])`) is modelled as an operation that
returns its result together with the (possibly updated) table, so that
a theorem below can establish that the composed function returns the
table exactly as it received it. -/

/-- `not chain` as a state-passing dictionary read. -/
def dictIsEmpty_st (chain : Chain) : Bool × Chain :=
  (chain.isEmpty, chain)

/-- `seed in chain` as a state-passing dictionary read. -/
def dictContains_st (chain : Chain) (k : String) : Bool × Chain :=
  ((List.lookup k chain).isSome, chain)

/-- `list(chain.keys())` as a state-passing dictionary read. -/
def dictKeys_st (chain : Chain) : List String × Chain :=
  (chain.map Prod.fst, chain)

/-- `chain.get(word, [])` as a state-passing dictionary read. -/
def dictGet_st (chain : Chain) (k : String) : List String × Chain :=
  ((List.lookup k chain).getD [], chain)

/-- State-passing version of the walk loop of lines 49-54. -/
def walk_st (fuel : Nat) (word : String) (rng : List Nat) (chain : Chain) :
    List String × Chain :=
  match fuel with
  | 0 => ([], chain)
  | n + 1 =>
      let q := dictGet_st chain word
      if q.1.isEmpty then ([], q.2)
      else
        let w := pyChoice q.1 (rng.headD 0)
        let rest := walk_st n w (rng.drop 1) q.2
        (w :: rest.1, rest.2)

/-- State-passing version of `generate_markov_tweet`: returns the output
string together with the transition table as it stands after the call. -/
def generate_markov_tweet_st (chain : Chain) (length : Int)
    (seed : Option String) (rng : List Nat) : String × Chain :=
  let e := dictIsEmpty_st chain
  if e.1 then ("Not enough data to generate a tweet.", e.2)
  else
    let start :=
      match seed with
      | none => ((dictKeys_st e.2).2,
          pyChoice (dictKeys_st e.2).1 (rng.headD 0), rng.drop 1)
      | some s =>
          let c := dictContains_st e.2 s
          if (s != "") && c.1 then (c.2, s, rng)
          else ((dictKeys_st c.2).2,
            pyChoice (dictKeys_st c.2).1 (rng.headD 0), rng.drop 1)
    let r := walk_st (length - 1).toNat start.2.1 start.2.2 start.1
    (String.intercalate " " (start.2.1 :: r.1), r.2)

/-- `b` is a successor of `a` in the table: the table stores a successor
list under `a` and `b` is one of its elements. -/
def isSuccessor (chain : Chain) (a b : String) : Prop :=
  ∃ l, List.lookup a chain = some l ∧ b ∈ l

example :
    generate_markov_tweet [("x", ["y"]), ("y", ["x"])] 5 (some "x") [7, 3, 0, 9] =
      "x y x y x" := by decide

example : generate_markov_tweet [] 10 none [0, 1, 2] =
    "Not enough data to generate a tweet." := by decide

example : generate_markov_tweet [("a", ["b", "b", "c"])] 3 (some "a") [0] =
    "a b" := by decide

example : generate_markov_tweet [("a", ["b", "b", "c"])] 3 (some "a") [2] =
    "a c" := by decide

/-- The walk appends at most `fuel` words. -/
theorem walk_length_le (chain : Chain) (fuel : Nat) (word : String)
    (rng : List Nat) : (walk chain fuel word rng).length ≤ fuel := by
  induction fuel generalizing word rng with
  | zero => simp [walk]
  | succ n ih =>
      simp only [walk]
      split
      · simp
      · simpa using Nat.succ_le_succ (ih _ _)

/-- `pyChoice` on a non-empty list returns one of its elements. -/
theorem pyChoice_mem (xs : List String) (r : Nat) (h : xs ≠ []) :
    pyChoice xs r ∈ xs := by
  have hlen : 0 < xs.length := List.length_pos.mpr h
  have hlt : r % xs.length < xs.length := Nat.mod_lt _ hlen
  unfold pyChoice
  rw [List.getD_eq_getElem _ _ hlt]
  exact List.getElem_mem hlt

/-- Claim C1: for every non-empty transition table and every positive
requested length, `generate_markov_tweet` returns the space-joined word
sequence, whose word count is at least 1 and at most the requested
length. -/
theorem generate_markov_tweet_length_bounds (chain : Chain) (length : Int)
    (seed : Option String) (rng : List Nat)
    (hne : chain ≠ []) (hpos : 0 < length) :
    generate_markov_tweet chain length seed rng =
      String.intercalate " " (generate_markov_tweet_words chain length seed rng) ∧
    1 ≤ (generate_markov_tweet_words chain length seed rng).length ∧
    ((generate_markov_tweet_words chain length seed rng).length : Int) ≤ length := by
  refine ⟨?_, ?_, ?_⟩
  · unfold generate_markov_tweet
    rw [if_neg]
    simpa [List.isEmpty_iff] using hne
  · simp [generate_markov_tweet_words]
  · unfold generate_markov_tweet_words
    simp only [List.length_cons]
    have hw := walk_length_le chain (length - 1).toNat
      (startWord chain seed rng).1 (startWord chain seed rng).2
    omega

/-- Witness for C1 at a concrete table and length. -/
theorem generate_markov_tweet_length_bounds_witness :
    generate_markov_tweet [("a", ["b"])] 3 none [0, 0, 0] =
      String.intercalate " "
        (generate_markov_tweet_words [("a", ["b"])] 3 none [0, 0, 0]) ∧
    1 ≤ (generate_markov_tweet_words [("a", ["b"])] 3 none [0, 0, 0]).length ∧
    ((generate_markov_tweet_words [("a", ["b"])] 3 none [0, 0, 0]).length : Int) ≤ 3 :=
  generate_markov_tweet_length_bounds [("a", ["b"])] 3 none [0, 0, 0]
    (by decide) (by decide)

/-- Claim C2: for the empty transition table, `generate_markov_tweet`
returns exactly the sentinel string, for every length, seed and random
stream. -/
theorem generate_markov_tweet_empty_sentinel (length : Int)
    (seed : Option String) (rng : List Nat) :
    generate_markov_tweet [] length seed rng =
      "Not enough data to generate a tweet." := rfl

/-- Claim C3: for every non-empty transition table, if the seed is a
non-empty string that is a key of the table, the first word of the
generated sequence equals the seed. -/
theorem generate_markov_tweet_seed_start (chain : Chain) (length : Int)
    (s : String) (rng : List Nat)
    (_hne : chain ≠ []) (hs : s ≠ "") (hkey : (List.lookup s chain).isSome) :
    (generate_markov_tweet_words chain length (some s) rng).head? = some s := by
  unfold generate_markov_tweet_words startWord
  have hcond : seedUsable chain (some s) = true := by
    simp [seedUsable, hkey, hs]
  simp [hcond]

/-- Witness for C3 at a concrete table and seed. -/
theorem generate_markov_tweet_seed_start_witness :
    (generate_markov_tweet_words [("a", ["b"])] 3 (some "a") [0]).head? =
      some "a" :=
  generate_markov_tweet_seed_start [("a", ["b"])] 3 "a" [0]
    (by decide) (by decide) (by decide)

/-- Claim C4: for every non-empty transition table, if the seed is
absent, empty, or not a key of the table (i.e. `seedUsable` is false),
the first word of the generated sequence is a key of the table. -/
theorem generate_markov_tweet_random_start (chain : Chain) (length : Int)
    (seed : Option String) (rng : List Nat)
    (hne : chain ≠ []) (hseed : seedUsable chain seed = false) :
    ∃ hd, (generate_markov_tweet_words chain length seed rng).head? = some hd ∧
      hd ∈ chain.map Prod.fst := by
  unfold generate_markov_tweet_words startWord
  rw [hseed]
  refine ⟨_, rfl, pyChoice_mem _ _ ?_⟩
  simpa using hne

/-- Witness for C4 at a concrete table with an unknown seed. -/
theorem generate_markov_tweet_random_start_witness :
    ∃ hd, (generate_markov_tweet_words [("a", ["b"])] 3 (some "zzz") [0]).head? =
        some hd ∧ hd ∈ ([("a", ["b"])] : Chain).map Prod.fst :=
  generate_markov_tweet_random_start [("a", ["b"])] 3 (some "zzz") [0]
    (by decide) (by decide)

/-- Claim C5: during the walk, whenever the current word's successor list
is absent from the table or stored as the empty list, the walk stops
immediately (returning no further words, whatever fuel remains), and the
two conditions are treated identically.  The walk is a total function, so
no fault is raised. -/
theorem walk_stops_without_successors (chain : Chain) (fuel : Nat)
    (word : String) (rng : List Nat)
    (h : List.lookup word chain = none ∨ List.lookup word chain = some []) :
    walk chain fuel word rng = [] := by
  cases fuel with
  | zero => rfl
  | succ n =>
      unfold walk
      rcases h with h | h <;> simp [h]

/-- Witness for C5: a key absent from the table stops the walk at once. -/
theorem walk_stops_without_successors_witness :
    walk [("a", ["b"])] 7 "b" [0, 1, 2] = [] :=
  walk_stops_without_successors [("a", ["b"])] 7 "b" [0, 1, 2]
    (Or.inl (by decide))

/-- Claim C6: for the table x -> [y], y -> [x], length 5 and seed x, the
generator deterministically returns the five-word alternating string, for
every random stream. -/
theorem generate_markov_tweet_cycle (rng : List Nat) :
    generate_markov_tweet [("x", ["y"]), ("y", ["x"])] 5 (some "x") rng =
      "x y x y x" := by
  have hchoice : ∀ (w : String) (r : Nat), pyChoice [w] r = w := by
    intro w r
    simp [pyChoice, Nat.mod_one]
  simp [generate_markov_tweet, generate_markov_tweet_words, startWord,
    seedUsable, walk, hchoice, List.lookup, String.intercalate]
  decide

/-- Claim C7: the generator is deterministic in the random source: two
runs on the same table, length and seed with the same random-choice
stream produce identical outputs. -/
theorem generate_markov_tweet_deterministic (chain : Chain) (length : Int)
    (seed : Option String) (rng1 rng2 : List Nat) (h : rng1 = rng2) :
    generate_markov_tweet chain length seed rng1 =
      generate_markov_tweet chain length seed rng2 := by
  rw [h]

/-- Witness for C7 on a concrete run. -/
theorem generate_markov_tweet_deterministic_witness :
    generate_markov_tweet [("a", ["b"])] 3 none [4, 2] =
      generate_markov_tweet [("a", ["b"])] 3 none [4, 2] :=
  generate_markov_tweet_deterministic [("a", ["b"])] 3 none [4, 2] [4, 2] rfl

/-- Claim C8: for every non-empty transition table and every non-positive
requested length, the generator performs no walk step (so no successor
list is ever indexed) and returns exactly the single start word. -/
theorem generate_markov_tweet_nonpositive_length (chain : Chain)
    (length : Int) (seed : Option String) (rng : List Nat)
    (hne : chain ≠ []) (hlen : length ≤ 0) :
    (generate_markov_tweet_words chain length seed rng).length = 1 ∧
    generate_markov_tweet chain length seed rng =
      (startWord chain seed rng).1 := by
  have htn : (length - 1).toNat = 0 := by omega
  constructor
  · simp [generate_markov_tweet_words, htn, walk]
  · unfold generate_markov_tweet
    rw [if_neg (by simpa [List.isEmpty_iff] using hne)]
    simp [generate_markov_tweet_words, htn, walk, String.intercalate]
    rfl

/-- Witness for C8 at length 0 and length -3. -/
theorem generate_markov_tweet_nonpositive_length_witness :
    (generate_markov_tweet_words [("a", ["b"])] (-3) none [5]).length = 1 ∧
    generate_markov_tweet [("a", ["b"])] (-3) none [5] =
      (startWord [("a", ["b"])] none [5]).1 :=
  generate_markov_tweet_nonpositive_length [("a", ["b"])] (-3) none [5]
    (by decide) (by decide)

/-- The state-passing walk never changes the table and computes the same
words as `walk`. -/
theorem walk_st_frame (fuel : Nat) (word : String) (rng : List Nat)
    (chain : Chain) :
    walk_st fuel word rng chain = (walk chain fuel word rng, chain) := by
  induction fuel generalizing word rng with
  | zero => rfl
  | succ n ih =>
      simp only [walk_st, walk, dictGet_st, ih]
      split <;> rfl

/-- Claim C9: the generator has no side effect on the transition table:
the state-passing translation returns the table it was given, unchanged,
for every table, length, seed and random stream, and computes the same
output as the pure function. -/
theorem generate_markov_tweet_frame (chain : Chain) (length : Int)
    (seed : Option String) (rng : List Nat) :
    generate_markov_tweet_st chain length seed rng =
      (generate_markov_tweet chain length seed rng, chain) := by
  unfold generate_markov_tweet_st generate_markov_tweet
    generate_markov_tweet_words startWord seedUsable
  simp only [dictIsEmpty_st, dictContains_st, dictKeys_st, walk_st_frame]
  cases seed with
  | none => split <;> rfl
  | some s =>
      split
      · rfl
      · by_cases hc : (s != "") && (List.lookup s chain).isSome <;>
          simp [hc]

/-- Every step of the walk moves to a stored successor of the word it
came from: the walk from `word` is a chain for `isSuccessor`. -/
theorem walk_is_path (chain : Chain) (fuel : Nat) (word : String)
    (rng : List Nat) :
    List.Chain (isSuccessor chain) word (walk chain fuel word rng) := by
  induction fuel generalizing word rng with
  | zero => exact List.Chain.nil
  | succ n ih =>
      simp only [walk]
      split
      · exact List.Chain.nil
      · rename_i hnz
        refine List.Chain.cons ?_ (ih _ _)
        rcases hl : List.lookup word chain with _ | l
        · rw [hl] at hnz
          simp at hnz
        · rw [hl] at hnz
          simp only [Option.getD_some] at hnz ⊢
          exact ⟨l, hl, pyChoice_mem l _ (by simpa using hnz)⟩

/-- Claim C10: for every non-empty transition table, the generated
sequence is a path through the chain: every word after the first is an
element of the successor list stored under the immediately preceding
word. -/
theorem generate_markov_tweet_path (chain : Chain) (length : Int)
    (seed : Option String) (rng : List Nat) (_hne : chain ≠ []) :
    List.Chain' (isSuccessor chain)
      (generate_markov_tweet_words chain length seed rng) := by
  unfold generate_markov_tweet_words
  exact walk_is_path chain (length - 1).toNat _ _

/-- Witness for C10 at a concrete table. -/
theorem generate_markov_tweet_path_witness :
    List.Chain' (isSuccessor [("x", ["y"]), ("y", ["x"])])
      (generate_markov_tweet_words [("x", ["y"]), ("y", ["x"])] 5
        (some "x") [0, 0, 0, 0]) :=
  generate_markov_tweet_path [("x", ["y"]), ("y", ["x"])] 5
    (some "x") [0, 0, 0, 0] (by decide)
